import Mathlib

/-!
Verification of the Nearest-Imagery Resolution subsystem of the Mapillary
Street Explorer application (`src/app.py`).

The embedding models the three core functions of the source:

* `geocode_nominatim` (app.py lines 22-42): geocoding with bounded retry.
  The network is modelled by an oracle `resp : Nat -> Attempt` giving the
  outcome of the i-th HTTP attempt.  An attempt is either a transport or
  parsing failure (any exception raised inside the `try` block: timeout,
  non-2xx status, malformed body, unparseable latitude or longitude) or a
  well-formed response carrying the already-parsed list of matches.  The
  run also records the number of requests issued and the sleeps performed,
  so that retry counts and inter-attempt delays are observable.

* `_deg_for_meters` / `_haversine_m` (app.py lines 44-57): geometry
  helpers over the reals (the embedding uses exact real arithmetic for the
  source's floating point).

* `mapillary_find_best` with its inner `rank_items` (app.py lines 59-124):
  the resolver.  Provider responses are again an oracle indexed by the
  request sequence number (0 is the direct closeto query, 1, 2, ... are the
  bounding-box queries in cascade order); each response is either a raised
  transport failure (`Except.error`) or a parsed item list (`Except.ok`).
  The resolver additionally returns the list of queries it issued, so that
  "no network call" and "one query per radius" statements are expressible.
  Python's infinite float distance for a candidate without geometry is
  modelled by the top element of `WithTop Real`; Python's stable
  `list.sort(key=(-int(pano), dist))` is modelled by `List.insertionSort`
  with the corresponding total preorder (a stable sort, like Timsort).
-/

namespace MapillaryExplorer

/-! ### Data model: geocoder -/

/-- One match of the geocoding response, after numeric parsing:
`lat`/`lon` are the parsed coordinates, `display_name` the optional label. -/
structure GeoMatch where
  lat : ℝ
  lon : ℝ
  display_name : Option String

/-- The value `geocode_nominatim` produces on success:
the dict `{lat, lon, label}` of app.py line 37. -/
structure GeoResult where
  lat : ℝ
  lon : ℝ
  label : String

/-- Outcome of one HTTP attempt of the geocoder.  `failure` stands for any
exception raised inside the `try` block of app.py lines 30-38 (transport
error, non-2xx status, malformed JSON, unparseable coordinate);
`success data` is a well-formed response with parsed match list `data`. -/
inductive Attempt where
  | failure
  | success (data : List GeoMatch)

/-- Observable trace of one `geocode_nominatim` call: the returned value,
the number of HTTP requests issued, and the list of sleep durations
performed between attempts (each entry is the `delay` argument). -/
structure GeoRun where
  result : Option GeoResult
  calls : Nat
  sleeps : List ℚ

/-- The retry loop of app.py lines 29-42.  `i` is the index of the current
attempt, the second argument the number of loop iterations still allowed
(Python's `for i in range(retries)` that has already consumed `i`
iterations).  On a well-formed response the first match is converted to a
`GeoResult` (label falling back to the queried address); an empty match
list returns `none` at once; a failure on the last allowed attempt returns
`none`, otherwise the loop sleeps `delay` and retries. -/
def geocode_go (address : String) (delay : ℚ) (resp : Nat → Attempt) :
    Nat → Nat → GeoRun
  | _, 0 => ⟨none, 0, []⟩
  | i, rem + 1 =>
      match resp i with
      | .success data =>
          match data with
          | [] => ⟨none, 1, []⟩
          | m :: _ => ⟨some ⟨m.lat, m.lon, m.display_name.getD address⟩, 1, []⟩
      | .failure =>
          if rem = 0 then ⟨none, 1, []⟩
          else
            let r := geocode_go address delay resp (i + 1) rem
            ⟨r.result, r.calls + 1, delay :: r.sleeps⟩

/-- `geocode_nominatim(address, retries=3, delay=0.8)` of app.py lines
22-42.  A falsy (empty) address returns `none` before any network
activity; otherwise the retry loop runs. -/
def geocode_nominatim (address : String) (resp : Nat → Attempt)
    (retries : Nat := 3) (delay : ℚ := 4/5) : GeoRun :=
  if address = "" then ⟨none, 0, []⟩
  else geocode_go address delay resp 0 retries

/-! ### Geometry helpers -/

/-- `math.radians`: degrees to radians. -/
noncomputable def radians (x : ℝ) : ℝ := x * Real.pi / 180

/-- `_deg_for_meters(lat_deg, meters)` of app.py lines 44-48: approximate
latitude/longitude offsets in degrees for the given meters,
`(meters / 111320, (meters / 111320) * cos(radians(lat_deg)))`. -/
noncomputable def _deg_for_meters (lat_deg meters : ℝ) : ℝ × ℝ :=
  let dlat := meters / 111320
  (dlat, dlat * Real.cos (radians lat_deg))

/-- `_haversine_m(lat1, lon1, lat2, lon2)` of app.py lines 50-57: great
circle distance in meters with Earth radius 6371000. -/
noncomputable def _haversine_m (lat1 lon1 lat2 lon2 : ℝ) : ℝ :=
  let dlat := radians (lat2 - lat1)
  let dlon := radians (lon2 - lon1)
  let a := Real.sin (dlat / 2) ^ 2 +
    Real.cos (radians lat1) * Real.cos (radians lat2) * Real.sin (dlon / 2) ^ 2
  2 * 6371000 * Real.arcsin (Real.sqrt a)

/-! ### Data model: imagery provider -/

/-- One imagery record of the provider response (fields of `MAP_FIELDS`,
app.py line 59).  `computed_geometry` holds the coordinate pair in the
provider's `[longitude, latitude]` array order when the record carries a
well-formed two-element geometry, and is `none` otherwise (the
`isinstance`/length check of app.py line 73 folds malformed geometry into
the absent case).  `is_pano` is the `bool(...)` of the panorama flag. -/
structure Item where
  id : String
  computed_geometry : Option (ℝ × ℝ)
  thumb_1024_url : Option String
  thumb_2048_url : Option String
  captured_at : Option String
  is_pano : Bool

/-- Python's `a or b` on two optional strings: the left operand when it is
truthy (present and non-empty), else the right operand.  This is the
`it.get("thumb_1024_url") or it.get("thumb_2048_url")` of app.py. -/
def pyOrStr (a b : Option String) : Option String :=
  match a with
  | some s => if s = "" then b else some s
  | none => b

/-- The preview URL chosen for a returned candidate. -/
def thumbOf (it : Item) : Option String :=
  pyOrStr it.thumb_1024_url it.thumb_2048_url

/-- The distance assigned to a candidate by `rank_items` (app.py lines
72-76): haversine distance from the query point when the geometry is
present, `float("inf")` — modelled as the top element — otherwise. -/
noncomputable def itemDist (lat lon : ℝ) (it : Item) : WithTop ℝ :=
  match it.computed_geometry with
  | some g => ((_haversine_m lat lon g.2 g.1 : ℝ) : WithTop ℝ)
  | none => ⊤

/-! ### The ranking order -/

/-- The Python sort key `(-int(x[0]), x[1])` of app.py line 78 on a ranked
triple `(is_pano, dist, item)`. -/
def pyKey {D I : Type} (t : Bool × D × I) : ℤ × D :=
  ((if t.1 then -1 else 0), t.2.1)

/-- The total preorder that Python's tuple comparison induces on ranked
triples: lexicographic on the key `(-int(is_pano), dist)`. -/
def rankLE {D I : Type} [LinearOrder D] (a b : Bool × D × I) : Prop :=
  (pyKey a).1 < (pyKey b).1 ∨ ((pyKey a).1 = (pyKey b).1 ∧ (pyKey a).2 ≤ (pyKey b).2)

instance {D I : Type} [LinearOrder D] (a b : Bool × D × I) : Decidable (rankLE a b) :=
  inferInstanceAs (Decidable
    ((pyKey a).1 < (pyKey b).1 ∨ ((pyKey a).1 = (pyKey b).1 ∧ (pyKey a).2 ≤ (pyKey b).2)))

instance rankLE.isTotal {D I : Type} [LinearOrder D] :
    IsTotal (Bool × D × I) rankLE where
  total a b := by
    rcases lt_trichotomy (pyKey a).1 (pyKey b).1 with h | h | h
    · exact Or.inl (Or.inl h)
    · rcases le_total (pyKey a).2 (pyKey b).2 with h2 | h2
      · exact Or.inl (Or.inr ⟨h, h2⟩)
      · exact Or.inr (Or.inr ⟨h.symm, h2⟩)
    · exact Or.inr (Or.inl h)

instance rankLE.isTrans {D I : Type} [LinearOrder D] :
    IsTrans (Bool × D × I) rankLE where
  trans a b c hab hbc := by
    rcases hab with h1 | ⟨e1, l1⟩
    · rcases hbc with h2 | ⟨e2, _⟩
      · exact Or.inl (h1.trans h2)
      · exact Or.inl (e2 ▸ h1)
    · rcases hbc with h2 | ⟨e2, l2⟩
      · exact Or.inl (e1 ▸ h2)
      · exact Or.inr ⟨e1.trans e2, l1.trans l2⟩

/-- Python's `ranked.sort(key=lambda x: (-int(x[0]), x[1]))` (app.py line
78): a stable ascending sort by the key, modelled by insertion sort with
the key preorder (insertion sort is stable, and a stable sort by a total
preorder is unique, so this coincides with Timsort's observable output). -/
def sortRanked {D I : Type} [LinearOrder D] (l : List (Bool × D × I)) :
    List (Bool × D × I) :=
  List.insertionSort rankLE l

/-- The inner `rank_items(items)` of app.py lines 69-79, with the enclosing
query point `(lat, lon)` made explicit: build the `(is_pano, dist, item)`
triples and sort them by `(-int(is_pano), dist)`. -/
noncomputable def rank_items (lat lon : ℝ) (items : List Item) :
    List (Bool × WithTop ℝ × Item) :=
  sortRanked (items.map fun it => (it.is_pano, itemDist lat lon it, it))

/-! ### The resolver -/

/-- A network request issued by the resolver: either the direct
closest-to-point query (app.py lines 82-85, limit 20) or one bounding-box
query of the cascade (app.py lines 105-108, limit 50; the box edges are
min-longitude, min-latitude, max-longitude, max-latitude as in the `bbox`
string of line 103). -/
inductive Query where
  | closeto (lat lon : ℝ) (lim : Nat)
  | box (minLon minLat maxLon maxLat : ℝ) (lim : Nat)

/-- The bounding-box query built for one radius of the cascade
(app.py lines 102-103 and 105-108). -/
noncomputable def bboxQuery (lat lon radius : ℝ) : Query :=
  let d := _deg_for_meters lat radius
  Query.box (lon - d.2) (lat - d.1) (lon + d.2) (lat + d.1) 50

/-- The selection applied to a ranked list (the shared body of app.py
lines 90-97 and 114-121): with `require_pano` set, the first ranked
panoramic triple if any, else no selection; without it, the head of the
ranked list.  A selection pairs the Python-`or` of the two thumbnail
fields with the chosen item, exactly the source's
`return it.get("thumb_1024_url") or it.get("thumb_2048_url"), it`. -/
def select {D : Type} (require_pano : Bool) (ranked : List (Bool × D × Item)) :
    Option (Option String × Item) :=
  if require_pano then
    match ranked.filter (fun t => t.1) with
    | [] => none
    | p :: _ => some (thumbOf p.2.2, p.2.2)
  else
    match ranked with
    | [] => none
    | t :: _ => some (thumbOf t.2.2, t.2.2)

/-- The expanding bounding-box cascade of app.py lines 101-124.  `resp k`
is the outcome of the k-th provider request of this resolver call
(`Except.error` models an exception raised by the request or by response
parsing, caught by the `except` clause of line 122); the second component
of the result is the list of queries issued by the cascade.  A failed
radius and a radius with an empty item list continue with the next radius;
a radius whose ranked items admit a selection returns it; an exhausted
radius list returns the empty outcome of line 124. -/
noncomputable def cascade (lat lon : ℝ) (require_pano : Bool)
    (resp : Nat → Except Unit (List Item)) :
    List ℝ → Nat → (Option String × Option Item) × List Query
  | [], _ => ((none, none), [])
  | radius :: rest, k =>
      let q := bboxQuery lat lon radius
      match resp k with
      | .error _ =>
          let c := cascade lat lon require_pano resp rest (k + 1)
          (c.1, q :: c.2)
      | .ok items =>
          match items with
          | [] =>
              let c := cascade lat lon require_pano resp rest (k + 1)
              (c.1, q :: c.2)
          | i :: is =>
              match select require_pano (rank_items lat lon (i :: is)) with
              | some (u, it) => ((u, some it), [q])
              | none =>
                  let c := cascade lat lon require_pano resp rest (k + 1)
                  (c.1, q :: c.2)

/-- The credential format check `token.startswith("MLY|")` of app.py line
64, modelled on the character list ( Lean's byte-level `String.startsWith`
does not reduce definitionally, the character-list phrasing is equivalent
and lets concrete runs evaluate). -/
def startsWithMLY (token : String) : Bool :=
  "MLY|".toList.isPrefixOf token.toList

/-- `mapillary_find_best(lat, lon, token, radii_m, require_pano)` of
app.py lines 61-124.  A missing token or one without the `MLY|` format
returns the empty outcome before any request (line 64-65).  Otherwise the
direct closeto query (request number 0) is tried: a non-empty response
whose ranking admits a selection returns it, any other outcome —
exception, empty item list, or (under `require_pano`) no panoramic
candidate — falls through to the cascade, whose requests are numbered
from 1. -/
noncomputable def mapillary_find_best (lat lon : ℝ) (token : String)
    (resp : Nat → Except Unit (List Item))
    (radii_m : List ℝ := [150, 300, 600, 1200, 3000, 6000, 10000])
    (require_pano : Bool := false) :
    (Option String × Option Item) × List Query :=
  if token = "" ∨ startsWithMLY token = false then ((none, none), [])
  else
    let q := Query.closeto lat lon 20
    match resp 0 with
    | .error _ =>
        let c := cascade lat lon require_pano resp radii_m 1
        (c.1, q :: c.2)
    | .ok items =>
        match items with
        | [] =>
            let c := cascade lat lon require_pano resp radii_m 1
            (c.1, q :: c.2)
        | i :: is =>
            match select require_pano (rank_items lat lon (i :: is)) with
            | some (u, it) => ((u, some it), [q])
            | none =>
                let c := cascade lat lon require_pano resp radii_m 1
                (c.1, q :: c.2)

/-! ### Exception-transparent variants

The source catches every exception its network calls can raise
(`except Exception` at app.py lines 39, 98 and 122), so the functions
above return plain values.  To state that no exception escapes to the
caller, the same control flow is repeated here with an `Except`-typed
result: an oracle failure that reached a point with no enclosing `try`
would surface as an `Except.error` of the whole call, and an error of a
continuation is propagated.  The theorems for the error-propagation claim
show these variants always produce `Except.ok` of the plain value. -/

/-- The retry loop of `geocode_nominatim` with uncaught exceptions made
visible in the result type. -/
def geocode_goE (address : String) (delay : ℚ) (resp : Nat → Attempt) :
    Nat → Nat → Except Unit GeoRun
  | _, 0 => .ok ⟨none, 0, []⟩
  | i, rem + 1 =>
      match resp i with
      | .success data =>
          match data with
          | [] => .ok ⟨none, 1, []⟩
          | m :: _ => .ok ⟨some ⟨m.lat, m.lon, m.display_name.getD address⟩, 1, []⟩
      | .failure =>
          if rem = 0 then .ok ⟨none, 1, []⟩
          else
            match geocode_goE address delay resp (i + 1) rem with
            | .ok r => .ok ⟨r.result, r.calls + 1, delay :: r.sleeps⟩
            | .error e => .error e

/-- `geocode_nominatim` with uncaught exceptions made visible. -/
def geocode_nominatimE (address : String) (resp : Nat → Attempt)
    (retries : Nat := 3) (delay : ℚ := 4/5) : Except Unit GeoRun :=
  if address = "" then .ok ⟨none, 0, []⟩
  else geocode_goE address delay resp 0 retries

/-- The radius cascade with uncaught exceptions made visible. -/
noncomputable def cascadeE (lat lon : ℝ) (require_pano : Bool)
    (resp : Nat → Except Unit (List Item)) :
    List ℝ → Nat → Except Unit ((Option String × Option Item) × List Query)
  | [], _ => .ok ((none, none), [])
  | radius :: rest, k =>
      let q := bboxQuery lat lon radius
      match resp k with
      | .error _ =>
          match cascadeE lat lon require_pano resp rest (k + 1) with
          | .ok c => .ok (c.1, q :: c.2)
          | .error e => .error e
      | .ok items =>
          match items with
          | [] =>
              match cascadeE lat lon require_pano resp rest (k + 1) with
              | .ok c => .ok (c.1, q :: c.2)
              | .error e => .error e
          | i :: is =>
              match select require_pano (rank_items lat lon (i :: is)) with
              | some (u, it) => .ok ((u, some it), [q])
              | none =>
                  match cascadeE lat lon require_pano resp rest (k + 1) with
                  | .ok c => .ok (c.1, q :: c.2)
                  | .error e => .error e

/-- `mapillary_find_best` with uncaught exceptions made visible. -/
noncomputable def mapillary_find_bestE (lat lon : ℝ) (token : String)
    (resp : Nat → Except Unit (List Item))
    (radii_m : List ℝ := [150, 300, 600, 1200, 3000, 6000, 10000])
    (require_pano : Bool := false) :
    Except Unit ((Option String × Option Item) × List Query) :=
  if token = "" ∨ startsWithMLY token = false then .ok ((none, none), [])
  else
    let q := Query.closeto lat lon 20
    match resp 0 with
    | .error _ =>
        match cascadeE lat lon require_pano resp radii_m 1 with
        | .ok c => .ok (c.1, q :: c.2)
        | .error e => .error e
    | .ok items =>
        match items with
        | [] =>
            match cascadeE lat lon require_pano resp radii_m 1 with
            | .ok c => .ok (c.1, q :: c.2)
            | .error e => .error e
        | i :: is =>
            match select require_pano (rank_items lat lon (i :: is)) with
            | some (u, it) => .ok ((u, some it), [q])
            | none =>
                match cascadeE lat lon require_pano resp radii_m 1 with
                | .ok c => .ok (c.1, q :: c.2)
                | .error e => .error e

/-! ### Helper lemmas -/

theorem geocode_goE_ok (address : String) (delay : ℚ) (resp : Nat → Attempt) :
    ∀ rem i, geocode_goE address delay resp i rem =
      .ok (geocode_go address delay resp i rem) := by
  intro rem
  induction rem with
  | zero => intro i; rfl
  | succ n ih =>
      intro i
      simp only [geocode_goE, geocode_go]
      cases resp i with
      | success data => cases data <;> rfl
      | failure =>
          by_cases h : n = 0
          · simp [h]
          · simp [h, ih (i + 1)]

theorem cascadeE_ok (lat lon : ℝ) (require_pano : Bool)
    (resp : Nat → Except Unit (List Item)) :
    ∀ radii k, cascadeE lat lon require_pano resp radii k =
      .ok (cascade lat lon require_pano resp radii k) := by
  intro radii
  induction radii with
  | nil => intro k; rfl
  | cons radius rest ih =>
      intro k
      simp only [cascadeE, cascade]
      cases resp k with
      | error e => simp [ih (k + 1)]
      | ok items =>
          cases items with
          | nil => simp [ih (k + 1)]
          | cons i is =>
              cases hsel : select require_pano (rank_items lat lon (i :: is)) with
              | none => simp [hsel, ih (k + 1)]
              | some p => cases p with | mk u it => simp [hsel]

theorem select_some_thumb {D : Type} {rp : Bool} {ranked : List (Bool × D × Item)}
    {u : Option String} {it : Item} (h : select rp ranked = some (u, it)) :
    u = thumbOf it := by
  cases rp with
  | false =>
      cases ranked with
      | nil => simp [select] at h
      | cons t ts =>
          simp [select] at h
          rw [← h.1, h.2]
  | true =>
      cases hf : ranked.filter (fun t => t.1) with
      | nil => simp [select, hf] at h
      | cons p ps =>
          simp [select, hf] at h
          rw [← h.1, h.2]

theorem select_false_cons {D : Type} (t : Bool × D × Item) (ts : List (Bool × D × Item)) :
    select false (t :: ts) = some (thumbOf t.2.2, t.2.2) := rfl

theorem select_true_of_no_pano {D : Type} {ranked : List (Bool × D × Item)}
    (h : ∀ t ∈ ranked, t.1 = false) : select true ranked = none := by
  have hf : ranked.filter (fun t => t.1) = [] := by
    rw [List.filter_eq_nil_iff]
    intro t ht
    simp [h t ht]
  simp [select, hf]

theorem rank_items_perm (lat lon : ℝ) (items : List Item) :
    (rank_items lat lon items).Perm
      (items.map fun it => (it.is_pano, itemDist lat lon it, it)) :=
  List.perm_insertionSort _ _

theorem mem_rank_items {lat lon : ℝ} {items : List Item}
    {t : Bool × WithTop ℝ × Item} :
    t ∈ rank_items lat lon items ↔
      t ∈ items.map fun it => (it.is_pano, itemDist lat lon it, it) :=
  List.mem_insertionSort _

theorem rank_items_ne_nil {lat lon : ℝ} {items : List Item} (h : items ≠ []) :
    rank_items lat lon items ≠ [] := by
  intro hr
  apply h
  have hp := rank_items_perm lat lon items
  rw [hr] at hp
  exact List.map_eq_nil_iff.mp (List.Perm.nil_eq hp).symm

theorem rank_items_singleton (lat lon : ℝ) (it : Item) :
    rank_items lat lon [it] = [(it.is_pano, itemDist lat lon it, it)] := rfl

/-- A request number at which the resolver does not return: the request
raised a transport failure, or produced an empty item list, or produced
items whose ranking admits no selection (no panoramic candidate under the
panorama requirement). -/
def noYield (lat lon : ℝ) (rp : Bool) (resp : Nat → Except Unit (List Item))
    (m : Nat) : Prop :=
  resp m = .error () ∨ resp m = .ok [] ∨
    ∃ i is, resp m = .ok (i :: is) ∧ select rp (rank_items lat lon (i :: is)) = none

theorem cascade_cons_noYield (lat lon : ℝ) (rp : Bool)
    (resp : Nat → Except Unit (List Item)) (radius : ℝ) (rest : List ℝ) (k : Nat)
    (h : noYield lat lon rp resp k) :
    cascade lat lon rp resp (radius :: rest) k =
      ((cascade lat lon rp resp rest (k + 1)).1,
        bboxQuery lat lon radius :: (cascade lat lon rp resp rest (k + 1)).2) := by
  rcases h with h | h | ⟨i, is, h, hsel⟩
  · simp [cascade, h]
  · simp [cascade, h]
  · simp [cascade, h, hsel]

theorem cascade_cons_yield (lat lon : ℝ) (rp : Bool)
    (resp : Nat → Except Unit (List Item)) (radius : ℝ) (rest : List ℝ) (k : Nat)
    (i : Item) (is : List Item) (u : Option String) (it : Item)
    (hr : resp k = .ok (i :: is))
    (hsel : select rp (rank_items lat lon (i :: is)) = some (u, it)) :
    cascade lat lon rp resp (radius :: rest) k =
      ((u, some it), [bboxQuery lat lon radius]) := by
  simp [cascade, hr, hsel]

theorem cascade_exhaust (lat lon : ℝ) (rp : Bool)
    (resp : Nat → Except Unit (List Item)) :
    ∀ (radii : List ℝ) (k : Nat),
      (∀ j, j < radii.length → noYield lat lon rp resp (k + j)) →
      cascade lat lon rp resp radii k =
        ((none, none), radii.map (bboxQuery lat lon)) := by
  intro radii
  induction radii with
  | nil => intro k _; rfl
  | cons radius rest ih =>
      intro k h
      rw [cascade_cons_noYield lat lon rp resp radius rest k
        (by simpa using h 0 (by simp))]
      rw [ih (k + 1) (fun j hj => by
        have h2 := h (j + 1) (by simpa using Nat.succ_lt_succ hj)
        rwa [show k + (j + 1) = k + 1 + j by omega] at h2)]
      simp

theorem cascade_first_yield (lat lon : ℝ) (rp : Bool)
    (resp : Nat → Except Unit (List Item)) :
    ∀ (radii : List ℝ) (k j : Nat) (u : Option String) (it i : Item)
      (is : List Item), j < radii.length →
      (∀ m, m < j → noYield lat lon rp resp (k + m)) →
      resp (k + j) = .ok (i :: is) →
      select rp (rank_items lat lon (i :: is)) = some (u, it) →
      cascade lat lon rp resp radii k =
        ((u, some it), (radii.take (j + 1)).map (bboxQuery lat lon)) := by
  intro radii
  induction radii with
  | nil => intro k j u it i is hj; simp at hj
  | cons radius rest ih =>
      intro k j u it i is hj hm hr hsel
      cases j with
      | zero =>
          rw [cascade_cons_yield lat lon rp resp radius rest k i is u it
            (by simpa using hr) hsel]
          simp
      | succ n =>
          rw [cascade_cons_noYield lat lon rp resp radius rest k
            (by simpa using hm 0 (Nat.succ_pos n))]
          rw [ih (k + 1) n u it i is (by simpa using Nat.lt_of_succ_lt_succ hj)
            (fun m hm2 => by
              have h2 := hm (m + 1) (Nat.succ_lt_succ hm2)
              rwa [show k + (m + 1) = k + 1 + m by omega] at h2)
            (by rwa [show k + (n + 1) = k + 1 + n by omega] at hr) hsel]
          simp

theorem mfb_valid_direct_noYield (lat lon : ℝ) (token : String)
    (resp : Nat → Except Unit (List Item)) (radii : List ℝ) (rp : Bool)
    (h1 : token ≠ "") (h2 : startsWithMLY token = true)
    (h : noYield lat lon rp resp 0) :
    mapillary_find_best lat lon token resp radii rp =
      ((cascade lat lon rp resp radii 1).1,
        Query.closeto lat lon 20 :: (cascade lat lon rp resp radii 1).2) := by
  rcases h with h | h | ⟨i, is, h, hsel⟩
  · simp [mapillary_find_best, h1, h2, h]
  · simp [mapillary_find_best, h1, h2, h]
  · simp [mapillary_find_best, h1, h2, h, hsel]

theorem mfb_valid_direct_yield (lat lon : ℝ) (token : String)
    (resp : Nat → Except Unit (List Item)) (radii : List ℝ) (rp : Bool)
    (i : Item) (is : List Item) (u : Option String) (it : Item)
    (h1 : token ≠ "") (h2 : startsWithMLY token = true)
    (hr : resp 0 = .ok (i :: is))
    (hsel : select rp (rank_items lat lon (i :: is)) = some (u, it)) :
    mapillary_find_best lat lon token resp radii rp =
      ((u, some it), [Query.closeto lat lon 20]) := by
  simp [mapillary_find_best, h1, h2, hr, hsel]

theorem geocode_go_all_fail (address : String) (delay : ℚ) (resp : Nat → Attempt) :
    ∀ (rem i : Nat), 0 < rem → (∀ k, k < rem → resp (i + k) = .failure) →
      geocode_go address delay resp i rem =
        ⟨none, rem, List.replicate (rem - 1) delay⟩ := by
  intro rem
  induction rem with
  | zero => intro i h; omega
  | succ n ih =>
      intro i _ hf
      have h0 : resp i = .failure := by simpa using hf 0 (Nat.succ_pos n)
      simp only [geocode_go, h0]
      cases n with
      | zero => simp
      | succ m =>
          rw [if_neg (Nat.succ_ne_zero m)]
          rw [ih (i + 1) (Nat.succ_pos m) (fun k hk => by
            have h2 := hf (k + 1) (Nat.succ_lt_succ hk)
            rwa [show i + (k + 1) = i + 1 + k by omega] at h2)]
          simp [List.replicate_succ]

/-! ### Fixtures for concrete runs -/

/-- Fixture: a candidate with neither thumbnail field and no geometry. -/
def itemBare : Item := ⟨"i1", none, none, none, none, false⟩

/-- Fixture: a candidate without geometry carrying a small thumbnail. -/
def itemThumb : Item := ⟨"i2", none, some "u1024", none, none, false⟩

/-- Fixture: a panoramic candidate without geometry. -/
def itemPano : Item := ⟨"i3", none, none, some "u2048", none, true⟩

/-- Fixture: a non-panoramic candidate at the provider origin. -/
def itemAtOrigin : Item := ⟨"i4", some (0, 0), some "u", none, none, false⟩

/-- Fixture: every provider request returns the bare candidate. -/
def respBare : Nat → Except Unit (List Item) := fun _ => .ok [itemBare]

/-- Fixture: every provider request returns the thumbnailed candidate. -/
def respThumb : Nat → Except Unit (List Item) := fun _ => .ok [itemThumb]

/-- Fixture: the direct query returns nothing, the first bounding-box
query raises a transport failure, the second one yields the thumbnailed
candidate. -/
def respSkip : Nat → Except Unit (List Item) := fun k =>
  if k = 0 then .ok [] else if k = 1 then .error () else .ok [itemThumb]

/-! ### C10: empty geocoding query -/

/-- C10: `geocode_nominatim` invoked with an empty query string returns
the empty result immediately: no HTTP request is issued and no retry or
delay is performed, whatever the provider would answer and whatever retry
budget and delay are configured. -/
theorem geocode_empty_address (resp : Nat → Attempt) (retries : Nat) (delay : ℚ) :
    geocode_nominatim "" resp retries delay = ⟨none, 0, []⟩ := rfl

/-! ### C4: geocoder retry policy -/

/-- C4: with a non-empty address and a positive retry budget,
`geocode_nominatim` retries on transport or parsing failure up to the
configured count (default 3), sleeping the fixed delay between attempts,
and all attempts failing yields the empty result (never an exception);
while a well-formed response with zero matches yields the empty result
after a single attempt with no retry and no sleep. -/
theorem geocode_retry_policy (address : String) (resp : Nat → Attempt)
    (retries : Nat) (delay : ℚ) (haddr : address ≠ "") (hpos : 0 < retries) :
    ((∀ k, k < retries → resp k = .failure) →
      geocode_nominatim address resp retries delay =
        ⟨none, retries, List.replicate (retries - 1) delay⟩) ∧
    (resp 0 = .success [] →
      geocode_nominatim address resp retries delay = ⟨none, 1, []⟩) := by
  constructor
  · intro hf
    rw [geocode_nominatim, if_neg haddr]
    exact geocode_go_all_fail address delay resp retries 0 hpos
      (fun k hk => by simpa using hf k hk)
  · intro h0
    rw [geocode_nominatim, if_neg haddr]
    cases retries with
    | zero => omega
    | succ n => simp [geocode_go, h0]

/-- Witness for C4: three transport failures in a row with the default
budget and delay produce the empty result after 3 calls and 2 sleeps. -/
theorem geocode_retry_policy_witness :
    geocode_nominatim "Eiffel Tower, Paris" (fun _ => .failure) 3 (4/5) =
      ⟨none, 3, List.replicate 2 (4/5)⟩ :=
  (geocode_retry_policy "Eiffel Tower, Paris" (fun _ => .failure) 3 (4/5)
    (by decide) (by decide)).1 (fun k _ => rfl)

/-! ### C5: no exception escapes to the caller -/

/-- C5: for every input and every sequence of provider responses or
failures, both the geocoder and the resolver return a value — the
exception-transparent variants always produce `Except.ok` of the plain
function's result, so no raised failure propagates to the caller. -/
theorem resolver_never_raises :
    (∀ (address : String) (resp : Nat → Attempt) (retries : Nat) (delay : ℚ),
      geocode_nominatimE address resp retries delay =
        .ok (geocode_nominatim address resp retries delay)) ∧
    (∀ (lat lon : ℝ) (token : String) (resp : Nat → Except Unit (List Item))
      (radii : List ℝ) (rp : Bool),
      mapillary_find_bestE lat lon token resp radii rp =
        .ok (mapillary_find_best lat lon token resp radii rp)) := by
  constructor
  · intro address resp retries delay
    rw [geocode_nominatimE, geocode_nominatim]
    by_cases h : address = ""
    · simp [h]
    · simp only [h, if_false]
      exact geocode_goE_ok address delay resp retries 0
  · intro lat lon token resp radii rp
    rw [mapillary_find_bestE, mapillary_find_best]
    by_cases h : token = "" ∨ startsWithMLY token = false
    · simp [h]
    · simp only [h, if_false]
      cases resp 0 with
      | error e => simp [cascadeE_ok]
      | ok items =>
          cases items with
          | nil => simp [cascadeE_ok]
          | cons i is =>
              cases hsel : select rp (rank_items lat lon (i :: is)) with
              | none => simp [hsel, cascadeE_ok]
              | some p => cases p with | mk u it => simp [hsel]

/-! ### C6: credential precondition -/

/-- C6: for every origin and panorama flag, a credential that is absent
(empty) or does not start with the `MLY|` prefix makes
`mapillary_find_best` return the empty outcome immediately, with zero
network requests issued. -/
theorem mapillary_invalid_token (lat lon : ℝ) (token : String)
    (resp : Nat → Except Unit (List Item)) (radii : List ℝ) (rp : Bool)
    (h : token = "" ∨ startsWithMLY token = false) :
    mapillary_find_best lat lon token resp radii rp = ((none, none), []) := by
  rw [mapillary_find_best, if_pos h]

/-- Witness for C6: a token without the required prefix yields the empty
outcome and an empty request log. -/
theorem mapillary_invalid_token_witness :
    ("abc" = "" ∨ startsWithMLY "abc" = false) ∧
    mapillary_find_best 0 0 "abc" respBare [150] true = ((none, none), []) :=
  ⟨Or.inr (by decide),
    mapillary_invalid_token 0 0 "abc" respBare [150] true (Or.inr (by decide))⟩

theorem cascade_fst_snd (lat lon : ℝ) (rp : Bool)
    (resp : Nat → Except Unit (List Item)) :
    ∀ (radii : List ℝ) (k : Nat),
      ((cascade lat lon rp resp radii k).1.2 = none ∧
        (cascade lat lon rp resp radii k).1.1 = none) ∨
      ∃ it, (cascade lat lon rp resp radii k).1.2 = some it ∧
        (cascade lat lon rp resp radii k).1.1 = thumbOf it := by
  intro radii
  induction radii with
  | nil => intro k; exact Or.inl ⟨rfl, rfl⟩
  | cons radius rest ih =>
      intro k
      rcases hr : resp k with e | items
      · simpa [cascade, hr] using ih (k + 1)
      · cases items with
        | nil => simpa [cascade, hr] using ih (k + 1)
        | cons i is =>
            cases hsel : select rp (rank_items lat lon (i :: is)) with
            | none => simpa [cascade, hr, hsel] using ih (k + 1)
            | some p =>
                cases p with
                | mk u it =>
                    right
                    exact ⟨it, by simp [cascade, hr, hsel],
                      by simp [cascade, hr, hsel, select_some_thumb hsel]⟩

theorem mfb_fst_snd (lat lon : ℝ) (token : String)
    (resp : Nat → Except Unit (List Item)) (radii : List ℝ) (rp : Bool) :
    ((mapillary_find_best lat lon token resp radii rp).1.2 = none ∧
      (mapillary_find_best lat lon token resp radii rp).1.1 = none) ∨
    ∃ it, (mapillary_find_best lat lon token resp radii rp).1.2 = some it ∧
      (mapillary_find_best lat lon token resp radii rp).1.1 = thumbOf it := by
  by_cases h : token = "" ∨ startsWithMLY token = false
  · rw [mapillary_find_best, if_pos h]
    exact Or.inl ⟨rfl, rfl⟩
  · rw [mapillary_find_best, if_neg h]
    rcases hr : resp 0 with e | items
    · simpa using cascade_fst_snd lat lon rp resp radii 1
    · cases items with
      | nil => simpa using cascade_fst_snd lat lon rp resp radii 1
      | cons i is =>
          cases hsel : select rp (rank_items lat lon (i :: is)) with
          | none => simpa [hsel] using cascade_fst_snd lat lon rp resp radii 1
          | some p =>
              cases p with
              | mk u it =>
                  right
                  exact ⟨it, by simp [hsel], by simp [hsel, select_some_thumb hsel]⟩

/-! ### C1: the preview URL of a returned candidate -/

/-- C1 is false as stated on the code: a candidate with both thumbnail
fields absent is not excluded from being returned.  At origin (0, 0) and a
valid token, a provider whose direct query yields exactly one candidate
carrying neither thumbnail field makes `mapillary_find_best` return a
non-empty outcome whose candidate is that record and whose preview URL is
absent. -/
theorem mapillary_bare_candidate_returned :
    (mapillary_find_best 0 0 "MLY|t" respBare [150] false).1 =
      (none, some itemBare) ∧
    itemBare.thumb_1024_url = none ∧ itemBare.thumb_2048_url = none ∧
    (mapillary_find_best 0 0 "MLY|t" respBare [150] false).1 ≠ (none, none) := by
  have h := mfb_valid_direct_yield 0 0 "MLY|t" respBare [150] false itemBare []
    none itemBare (by decide) (by decide) rfl rfl
  refine ⟨by rw [h], rfl, rfl, by rw [h]; simp⟩

/-- C1 (amended): whenever `mapillary_find_best` returns an outcome whose
candidate component is present, the preview URL component is the Python
`or` of the small and large thumbnail fields — the small one if present
and non-empty, else the large one; when both fields are absent the
candidate is still returned, with an absent preview URL, rather than being
excluded. -/
theorem mapillary_preview_is_thumb_or (lat lon : ℝ) (token : String)
    (resp : Nat → Except Unit (List Item)) (radii : List ℝ) (rp : Bool)
    (it : Item)
    (h : (mapillary_find_best lat lon token resp radii rp).1.2 = some it) :
    (mapillary_find_best lat lon token resp radii rp).1.1 = thumbOf it := by
  rcases mfb_fst_snd lat lon token resp radii rp with ⟨h1, _⟩ | ⟨it2, h1, h2⟩
  · rw [h] at h1; cases h1
  · rw [h] at h1
    injection h1 with e
    rw [h2, e]

/-- Witness for C1 (amended): a candidate with a small thumbnail is
returned with that thumbnail as the preview URL. -/
theorem mapillary_preview_is_thumb_or_witness :
    (mapillary_find_best 0 0 "MLY|t" respThumb [150] false).1.2 =
      some itemThumb ∧
    (mapillary_find_best 0 0 "MLY|t" respThumb [150] false).1.1 =
      thumbOf itemThumb := by
  have h := mfb_valid_direct_yield 0 0 "MLY|t" respThumb [150] false itemThumb []
    (thumbOf itemThumb) itemThumb (by decide) (by decide) rfl rfl
  exact ⟨by rw [h], mapillary_preview_is_thumb_or 0 0 "MLY|t" respThumb [150]
    false itemThumb (by rw [h])⟩

/-! ### C2: the radius cascade -/

/-- C2: with a valid credential, when the direct proximity attempt fails
or yields no qualifying candidate, `mapillary_find_best` iterates the
radii in the given order, issuing exactly one bounding-box query per
radius; a radius whose query raises a transport failure — like one with
no qualifying candidate — is skipped and the cascade continues with the
next radius; the first radius whose response admits a qualifying
selection terminates the cascade with that selection as the outcome; and
if no radius yields one, the outcome is empty. -/
theorem mapillary_cascade_policy (lat lon : ℝ) (token : String)
    (resp : Nat → Except Unit (List Item)) (radii : List ℝ) (rp : Bool)
    (j : Nat)
    (h1 : token ≠ "") (h2 : startsWithMLY token = true)
    (hdir : noYield lat lon rp resp 0)
    (hskip : ∀ m, m < j → noYield lat lon rp resp (1 + m)) :
    (j = radii.length →
      mapillary_find_best lat lon token resp radii rp =
        ((none, none),
          Query.closeto lat lon 20 :: radii.map (bboxQuery lat lon))) ∧
    (∀ (u : Option String) (it i : Item) (is : List Item),
      j < radii.length → resp (1 + j) = .ok (i :: is) →
      select rp (rank_items lat lon (i :: is)) = some (u, it) →
      mapillary_find_best lat lon token resp radii rp =
        ((u, some it),
          Query.closeto lat lon 20 ::
            (radii.take (j + 1)).map (bboxQuery lat lon))) := by
  constructor
  · intro hlen
    rw [mfb_valid_direct_noYield lat lon token resp radii rp h1 h2 hdir]
    rw [cascade_exhaust lat lon rp resp radii 1
      (fun m hm => hskip m (by omega))]
  · intro u it i is hlt hr hsel
    rw [mfb_valid_direct_noYield lat lon token resp radii rp h1 h2 hdir]
    rw [cascade_first_yield lat lon rp resp radii 1 j u it i is hlt hskip hr hsel]

/-- Witness for C2: direct query empty, first radius raises a transport
failure and is skipped, second radius yields the candidate; the request
log shows the closeto query followed by one bounding-box query per tried
radius. -/
theorem mapillary_cascade_policy_witness :
    mapillary_find_best 0 0 "MLY|t" respSkip [150, 300] false =
      ((some "u1024", some itemThumb),
        Query.closeto 0 0 20 ::
          (([150, 300] : List ℝ).take 2).map (bboxQuery 0 0)) :=
  (mapillary_cascade_policy 0 0 "MLY|t" respSkip [150, 300] false 1
    (by decide) (by decide) (Or.inr (Or.inl rfl))
    (fun m hm => by
      have hm0 : m = 0 := by omega
      subst hm0
      exact Or.inl rfl)).2
    (some "u1024") itemThumb itemThumb [] (by simp) rfl rfl

/-! ### C8: the direct phase -/

/-- C8: with a valid credential: if the direct proximity query succeeds
with at least one candidate and the panorama requirement is off,
`mapillary_find_best` returns a candidate from that query alone and the
request log is exactly the single closeto query — no bounding-box query
is issued; if the panorama requirement is on and the direct query's
results contain no panoramic candidate, the resolver does not return a
candidate from the direct phase but proceeds to the bounding-box
cascade. -/
theorem mapillary_direct_phase (lat lon : ℝ) (token : String)
    (resp : Nat → Except Unit (List Item)) (radii : List ℝ)
    (h1 : token ≠ "") (h2 : startsWithMLY token = true) :
    (∀ i is, resp 0 = .ok (i :: is) →
      (mapillary_find_best lat lon token resp radii false).1.2 ≠ none ∧
      (mapillary_find_best lat lon token resp radii false).2 =
        [Query.closeto lat lon 20]) ∧
    (∀ items, resp 0 = .ok items → (∀ it ∈ items, it.is_pano = false) →
      mapillary_find_best lat lon token resp radii true =
        ((cascade lat lon true resp radii 1).1,
          Query.closeto lat lon 20 :: (cascade lat lon true resp radii 1).2)) := by
  constructor
  · intro i is hr
    obtain ⟨t, ts, hts⟩ : ∃ t ts, rank_items lat lon (i :: is) = t :: ts := by
      cases h : rank_items lat lon (i :: is) with
      | nil => exact absurd h (rank_items_ne_nil (by simp))
      | cons t ts => exact ⟨t, ts, rfl⟩
    have hsel : select false (rank_items lat lon (i :: is)) =
        some (thumbOf t.2.2, t.2.2) := by
      rw [hts]; exact select_false_cons t ts
    rw [mfb_valid_direct_yield lat lon token resp radii false i is
      (thumbOf t.2.2) t.2.2 h1 h2 hr hsel]
    exact ⟨by simp, rfl⟩
  · intro items hr hnp
    cases items with
    | nil =>
        exact mfb_valid_direct_noYield lat lon token resp radii true h1 h2
          (Or.inr (Or.inl hr))
    | cons i is =>
        have hsel : select true (rank_items lat lon (i :: is)) = none := by
          apply select_true_of_no_pano
          intro t ht
          rw [mem_rank_items] at ht
          obtain ⟨it, hit, heq⟩ := List.mem_map.mp ht
          subst heq
          exact hnp it hit
        exact mfb_valid_direct_noYield lat lon token resp radii true h1 h2
          (Or.inr (Or.inr ⟨i, is, hr, hsel⟩))

/-- Witness for C8: a successful direct query with one non-panoramic
candidate and the panorama requirement off returns that candidate with
only the closeto query issued. -/
theorem mapillary_direct_phase_witness :
    (mapillary_find_best 0 0 "MLY|t" respThumb [150] false).1.2 ≠ none ∧
    (mapillary_find_best 0 0 "MLY|t" respThumb [150] false).2 =
      [Query.closeto 0 0 20] :=
  (mapillary_direct_phase 0 0 "MLY|t" respThumb [150]
    (by decide) (by decide)).1 itemThumb [] rfl

/-! ### C7: candidates with absent coordinates -/

/-- C7 is false as stated on the code.  First, a candidate with an absent
coordinate does not sort after every candidate with a present coordinate:
the sort key puts the panorama flag first, so the coordinate-less
panoramic candidate ranks before the non-panoramic candidate located at
the query point.  Second, a candidate set containing only candidates with
absent coordinates is still selected from: the resolver returns its
top-ranked member as a usable outcome. -/
theorem missing_geometry_counterexample :
    rank_items 0 0 [itemAtOrigin, itemPano] =
      [(true, ⊤, itemPano),
        (false, itemDist 0 0 itemAtOrigin, itemAtOrigin)] ∧
    itemAtOrigin.computed_geometry = some (0, 0) ∧
    itemPano.computed_geometry = none ∧
    (mapillary_find_best 0 0 "MLY|t" respThumb [150] false).1 =
      (some "u1024", some itemThumb) ∧
    itemThumb.computed_geometry = none := by
  refine ⟨?_, rfl, rfl, ?_, rfl⟩
  · show sortRanked _ = _
    rw [sortRanked]
    simp only [List.map, List.insertionSort, List.orderedInsert]
    rw [if_neg]
    · rfl
    · intro hle
      rcases hle with hlt | ⟨heq, _⟩
      · simp [pyKey, itemAtOrigin, itemPano] at hlt
      · simp [pyKey, itemAtOrigin, itemPano] at heq
  · rw [mfb_valid_direct_yield 0 0 "MLY|t" respThumb [150] false itemThumb []
      (some "u1024") itemThumb (by decide) (by decide) rfl rfl]

/-- C7 (amended): a candidate with an absent coordinate is assigned the
infinite distance, and among candidates with the same panorama flag it
sorts strictly after every candidate with a present coordinate (a
panoramic candidate without coordinates still sorts before non-panoramic
ones); and a candidate set containing only candidates with absent
coordinates is not discarded: for every such non-empty set, delivered
either by the direct query or by any radius of the cascade (the earlier
attempts not yielding), the resolver returns the head of the ranked list
— the top-ranked candidate — with the Python `or` of its thumbnail
fields as preview URL, and the request log shows the delivering query was
used rather than skipped. -/
theorem missing_geometry_ranking :
    (∀ (lat lon : ℝ) (it : Item), it.computed_geometry = none →
      itemDist lat lon it = ⊤) ∧
    (∀ (lat lon : ℝ) (f : Bool) (it1 it2 : Item) (g : ℝ × ℝ),
      it1.computed_geometry = some g → it2.computed_geometry = none →
      rankLE (f, itemDist lat lon it1, it1) (f, itemDist lat lon it2, it2) ∧
      ¬ rankLE (f, itemDist lat lon it2, it2) (f, itemDist lat lon it1, it1)) ∧
    (∀ (lat lon : ℝ) (token : String) (resp : Nat → Except Unit (List Item))
      (radii : List ℝ) (i : Item) (is : List Item)
      (t : Bool × WithTop ℝ × Item) (ts : List (Bool × WithTop ℝ × Item)),
      token ≠ "" → startsWithMLY token = true →
      (∀ it ∈ i :: is, it.computed_geometry = none) →
      resp 0 = .ok (i :: is) →
      rank_items lat lon (i :: is) = t :: ts →
      mapillary_find_best lat lon token resp radii false =
        ((thumbOf t.2.2, some t.2.2), [Query.closeto lat lon 20])) ∧
    (∀ (lat lon : ℝ) (token : String) (resp : Nat → Except Unit (List Item))
      (radii : List ℝ) (j : Nat) (i : Item) (is : List Item)
      (t : Bool × WithTop ℝ × Item) (ts : List (Bool × WithTop ℝ × Item)),
      token ≠ "" → startsWithMLY token = true →
      (∀ it ∈ i :: is, it.computed_geometry = none) →
      noYield lat lon false resp 0 →
      (∀ m, m < j → noYield lat lon false resp (1 + m)) →
      j < radii.length →
      resp (1 + j) = .ok (i :: is) →
      rank_items lat lon (i :: is) = t :: ts →
      mapillary_find_best lat lon token resp radii false =
        ((thumbOf t.2.2, some t.2.2),
          Query.closeto lat lon 20 ::
            (radii.take (j + 1)).map (bboxQuery lat lon))) := by
  refine ⟨?_, ?_, ?_, ?_⟩
  · intro lat lon it h
    rw [itemDist, h]
  · intro lat lon f it1 it2 g h1 h2
    have hd1 : itemDist lat lon it1 =
        ((_haversine_m lat lon g.2 g.1 : ℝ) : WithTop ℝ) := by
      rw [itemDist, h1]
    have hd2 : itemDist lat lon it2 = ⊤ := by rw [itemDist, h2]
    constructor
    · exact Or.inr ⟨rfl, by rw [hd2]; exact le_top⟩
    · intro hle
      rcases hle with hlt | ⟨_, hge⟩
      · exact absurd hlt (by simp [pyKey])
      · rw [hd1, hd2] at hge
        exact WithTop.coe_ne_top (top_le_iff.mp hge)
  · intro lat lon token resp radii i is t ts h1 h2 hall hr hrank
    have hsel : select false (rank_items lat lon (i :: is)) =
        some (thumbOf t.2.2, t.2.2) := by
      rw [hrank]
      exact select_false_cons t ts
    exact mfb_valid_direct_yield lat lon token resp radii false i is
      (thumbOf t.2.2) t.2.2 h1 h2 hr hsel
  · intro lat lon token resp radii j i is t ts h1 h2 hall hdir hskip hlt hr hrank
    have hsel : select false (rank_items lat lon (i :: is)) =
        some (thumbOf t.2.2, t.2.2) := by
      rw [hrank]
      exact select_false_cons t ts
    rw [mfb_valid_direct_noYield lat lon token resp radii false h1 h2 hdir]
    rw [cascade_first_yield lat lon false resp radii 1 j (thumbOf t.2.2) t.2.2
      i is hlt hskip hr hsel]

/-- Fixture: the direct query returns nothing; every bounding-box query
returns two candidates, both without coordinates, the non-panoramic one
first in input order. -/
def respAllAbsent : Nat → Except Unit (List Item) := fun k =>
  if k = 0 then .ok [] else .ok [itemThumb, itemPano]

/-- The ranked list of the two coordinate-less fixture candidates: the
panorama flag dominates the key, so the panoramic candidate is reordered
to the head although it came second in the input. -/
theorem rank_two_absent :
    rank_items 0 0 [itemThumb, itemPano] =
      [(true, ⊤, itemPano), (false, ⊤, itemThumb)] := by
  show sortRanked _ = _
  rw [sortRanked]
  simp only [List.map, List.insertionSort, List.orderedInsert]
  rw [if_neg]
  · rfl
  · intro hle
    rcases hle with hlt | ⟨heq, _⟩
    · simp [pyKey, itemThumb, itemPano] at hlt
    · simp [pyKey, itemThumb, itemPano] at heq

/-- Witness for C7 (amended): the direct query is empty and the first
radius returns a two-candidate set whose members both lack coordinates;
the resolver returns the top-ranked of them (the panoramic one, moved to
the head by the ranking) from that radius, with its thumbnail as
preview. -/
theorem missing_geometry_ranking_witness :
    mapillary_find_best 0 0 "MLY|t" respAllAbsent [150] false =
      ((thumbOf itemPano, some itemPano),
        Query.closeto 0 0 20 ::
          (([150] : List ℝ).take 1).map (bboxQuery 0 0)) :=
  missing_geometry_ranking.2.2.2 0 0 "MLY|t" respAllAbsent [150] 0 itemThumb
    [itemPano] (true, ⊤, itemPano) [(false, ⊤, itemThumb)]
    (by decide) (by decide)
    (by intro it hit; fin_cases hit <;> rfl)
    (Or.inr (Or.inl rfl))
    (fun m hm => absurd hm (Nat.not_lt_zero m))
    (by simp) rfl rank_two_absent

/-! ### C3: ranking order, stability and determinism -/

/-- C3: `rank_items` orders candidates by panorama flag descending then
great-circle distance ascending: the ranked list is sorted for the key
preorder and is a permutation of the input triples; the key preorder is
total; ties (equal flag and equal distance) are preserved in input order
(stability: any key-ordered pair that is a sublist of the input triples
remains a sublist of the ranked output); repeated invocation on the same
inputs yields the identical sequence; and the sorting core orders the
candidates (non-pano, dist 500), (pano, dist 800), (pano, dist 100) as
pano/100, pano/800, non-pano/500. -/
theorem rank_items_ordering :
    (∀ (lat lon : ℝ) (items : List Item),
      (rank_items lat lon items).Sorted rankLE) ∧
    (∀ (lat lon : ℝ) (items : List Item),
      (rank_items lat lon items).Perm
        (items.map fun it => (it.is_pano, itemDist lat lon it, it))) ∧
    (∀ (a b : Bool × WithTop ℝ × Item), rankLE a b ∨ rankLE b a) ∧
    (∀ (lat lon : ℝ) (items : List Item) (a b : Bool × WithTop ℝ × Item),
      rankLE a b →
      [a, b].Sublist (items.map fun it => (it.is_pano, itemDist lat lon it, it)) →
      [a, b].Sublist (rank_items lat lon items)) ∧
    (∀ (lat lon : ℝ) (items : List Item),
      rank_items lat lon items = rank_items lat lon items) ∧
    (sortRanked [(false, (500 : ℚ), 1), (true, 800, 2), (true, 100, 3)] =
      [(true, 100, 3), (true, 800, 2), (false, 500, 1)]) := by
  refine ⟨?_, ?_, ?_, ?_, ?_, ?_⟩
  · intro lat lon items
    exact List.sorted_insertionSort rankLE _
  · intro lat lon items
    exact rank_items_perm lat lon items
  · intro a b
    exact IsTotal.total a b
  · intro lat lon items a b hab hsub
    exact List.pair_sublist_insertionSort hab hsub
  · intro lat lon items
    rfl
  · decide

/-- Witness for C3: the stability clause at a concrete tie — a duplicated
coordinate-less candidate keeps its two equal-key entries in input
order. -/
theorem rank_items_ordering_witness :
    rankLE (false, (⊤ : WithTop ℝ), itemBare) (false, (⊤ : WithTop ℝ), itemBare) ∧
    [((false : Bool), (⊤ : WithTop ℝ), itemBare), (false, ⊤, itemBare)].Sublist
      ([itemBare, itemBare].map fun it => (it.is_pano, itemDist 0 0 it, it)) ∧
    [((false : Bool), (⊤ : WithTop ℝ), itemBare), (false, ⊤, itemBare)].Sublist
      (rank_items 0 0 [itemBare, itemBare]) := by
  have h1 : rankLE (D := WithTop ℝ) (I := Item)
      (false, ⊤, itemBare) (false, ⊤, itemBare) := Or.inr ⟨rfl, le_refl _⟩
  have h2 : [((false : Bool), (⊤ : WithTop ℝ), itemBare), (false, ⊤, itemBare)].Sublist
      ([itemBare, itemBare].map fun it => (it.is_pano, itemDist 0 0 it, it)) :=
    List.Sublist.refl _
  exact ⟨h1, h2, rank_items_ordering.2.2.2.1 0 0 [itemBare, itemBare] _ _ h1 h2⟩

/-! ### C9: degree-offset monotonicity -/

/-- C9 is false as stated over exact real arithmetic: at the (valid)
latitude 90 the cosine factor is cos(pi/2) = 0, so the longitude
component of `_deg_for_meters` is constantly zero and not strictly
increasing in meters. -/
theorem deg_offsets_pole_constant :
    (100 : ℝ) < 200 ∧
    ( _deg_for_meters 90 100).2 = ( _deg_for_meters 90 200).2 := by
  have h : radians 90 = Real.pi / 2 := by
    rw [radians]; ring
  constructor
  · norm_num
  · show 100 / 111320 * Real.cos (radians 90) = 200 / 111320 * Real.cos (radians 90)
    rw [h, Real.cos_pi_div_two, mul_zero, mul_zero]

/-- C9 (amended): for every fixed latitude the latitude offset of
`_deg_for_meters` is strictly increasing in meters; the longitude offset
is strictly increasing in meters for every latitude strictly between
-90 and 90 (at the poles the cosine factor vanishes and the longitude
offset is constant). -/
theorem deg_offsets_strict_mono (lat m1 m2 : ℝ) (h : m1 < m2) :
    ( _deg_for_meters lat m1).1 < ( _deg_for_meters lat m2).1 ∧
    (-90 < lat → lat < 90 →
      ( _deg_for_meters lat m1).2 < ( _deg_for_meters lat m2).2) := by
  have hd : m1 / 111320 < m2 / 111320 := by gcongr
  constructor
  · exact hd
  · intro hl hu
    have hc : 0 < Real.cos (radians lat) := by
      apply Real.cos_pos_of_mem_Ioo
      rw [Set.mem_Ioo]
      constructor
      · rw [radians]
        nlinarith [Real.pi_pos]
      · rw [radians]
        nlinarith [Real.pi_pos]
    exact mul_lt_mul_of_pos_right hd hc

/-- Witness for C9 (amended): at the equator both offsets grow strictly
from 150 m to 300 m. -/
theorem deg_offsets_strict_mono_witness :
    ( _deg_for_meters 0 150).1 < ( _deg_for_meters 0 300).1 ∧
    ( _deg_for_meters 0 150).2 < ( _deg_for_meters 0 300).2 := by
  have h := deg_offsets_strict_mono 0 150 300 (by norm_num)
  exact ⟨h.1, h.2 (by norm_num) (by norm_num)⟩

end MapillaryExplorer
